import Mathlib

/-!
Shallow embedding of the banking domain model of `sistema_bancario_poo2.py`
(the second, corrected revision, which the specification describes).

Modelling conventions:
* Python `float` amounts are embedded as `ℚ` (exact arithmetic; the spec itself
  mandates a non-floating representation for a faithful reimplementation).
* `datetime.datetime.now()` is embedded by threading an explicit `now : DateTime`
  argument into every operation that constructs a transaction; the value of the
  clock is an oracle input, everything else is deterministic.
* Methods that mutate `self` and return `bool` are embedded as state-passing
  functions returning `State × Option AccountError`: the new state together with
  `none` on success (Python `True`), or `some e` on failure (Python `False`),
  where `e` identifies which guard failed (in the source each guard prints a
  distinct error message; the spec names these `InvalidAmount`,
  `InsufficientFunds`, `LimitExceeded`, `WithdrawalCapReached`).
* The `cliente` back-reference stored in `Conta` is not needed by any balance,
  history or limit behaviour and is omitted from the account state.
-/

/-- Calendar instant, standing for a Python `datetime.datetime` value. -/
structure DateTime where
  year : Nat
  month : Nat
  day : Nat
  hour : Nat
  minute : Nat
  second : Nat
deriving DecidableEq, Repr

/-- Zero-padded two-digit rendering used by `strftime` fields `%d %m %H %M %S`. -/
def pad2 (n : Nat) : String :=
  if n < 10 then "0" ++ toString n else toString n

/-- Rendering of `strftime("%d-%m-%Y %H:%M:%S")` on a `DateTime`. -/
def DateTime.strftimeDMYHMS (d : DateTime) : String :=
  pad2 d.day ++ "-" ++ pad2 d.month ++ "-" ++ toString d.year ++ " " ++
    pad2 d.hour ++ ":" ++ pad2 d.minute ++ ":" ++ pad2 d.second

/-- Numeric value of a decimal digit character, `int(c)` on a digit char. -/
def charVal (c : Char) : Nat :=
  c.toNat - Char.toNat '0'

/-- CPF check-digit rule shared by both verification digits: `0` when the
remainder of the weighted sum mod 11 is below 2, else `11 - remainder`. -/
def digitoVerificador (soma : Nat) : Nat :=
  let resto := soma % 11
  if resto < 2 then 0 else 11 - resto

/-- Digit-level body of `validar_cpf` from the source, applied to the already
stripped digit string: require exactly 11 digits, reject a string of 11
identical digits, then check both weighted check digits. The source loops
`soma += int(cpf[i]) * (10 - i)` for `i < 9` (weights 10 down to 2) and
`soma += int(cpf[i]) * (11 - i)` for `i < 10` (weights 11 down to 2); here the
same sums are taken by zipping the digit prefix with the weight list. -/
def validar_cpf_digits (s : List Char) : Bool :=
  if s.length ≠ 11 then
    false
  else if s = List.replicate 11 (s.headD '0') then
    false
  else
    let d := s.map charVal
    let soma1 := (List.zipWith (· * ·) (d.take 9) [10, 9, 8, 7, 6, 5, 4, 3, 2]).sum
    if digitoVerificador soma1 ≠ d.getD 9 0 then
      false
    else
      let soma2 := (List.zipWith (· * ·) (d.take 10) [11, 10, 9, 8, 7, 6, 5, 4, 3, 2]).sum
      if digitoVerificador soma2 ≠ d.getD 10 0 then
        false
      else
        true

/-- Function `validar_cpf(cpf)`: the source first strips the non-digit characters
(`filter(str.isdigit, cpf)`), then runs the digit-level checks above. -/
def validar_cpf (cpf : String) : Bool :=
  validar_cpf_digits (cpf.toList.filter Char.isDigit)

/-- Spec-side CPF digit checks, written from the specification text of §4.1 for
the refinement claim, on the stripped digit string: (2) fail when the digit
count is not 11; (3) fail when all 11 digits are identical; (4) first check
digit from the weighted sum of digits 0–8 with weights 10 down to 2, compared
at position 9; (5) second check digit from digits 0–9 with weights 11 down to
2, compared at position 10; (6) succeed exactly when both checks pass. -/
def cpfSpecDigits (digits : List Char) : Bool :=
  let d := digits.map charVal
  decide (digits.length = 11) &&
  !(decide (∀ x ∈ digits, x = digits.headD '0')) &&
  decide (d.getD 9 0 = digitoVerificador
    ((List.range 9).foldl (fun acc i => acc + d.getD i 0 * (10 - i)) 0)) &&
  decide (d.getD 10 0 = digitoVerificador
    ((List.range 10).foldl (fun acc i => acc + d.getD i 0 * (11 - i)) 0))

/-- Spec-side validator on the raw candidate string: strip the non-digit
characters, then run the spec-side digit checks. -/
def cpfSpecValidate (candidate : String) : Bool :=
  cpfSpecDigits (candidate.toList.filter Char.isDigit)

/-- Tag distinguishing the two concrete `Transacao` subclasses. -/
inductive TipoTransacao
  | deposito
  | saque
deriving DecidableEq, Repr

/-- Value of `transacao.__class__.__name__`, the string stored in a history entry. -/
def TipoTransacao.className : TipoTransacao → String
  | .deposito => "Deposito"
  | .saque => "Saque"

/-- A `Transacao` object: its subclass tag, `_valor`, and `_data` (the
`datetime.now()` instant captured when the object was constructed). -/
structure Transacao where
  tipo : TipoTransacao
  valor : ℚ
  data : DateTime
deriving DecidableEq, Repr

/-- One dictionary appended by `Historico.adicionar_transacao`:
`{"tipo": class name, "valor": amount, "data": formatted timestamp}`. -/
structure EntradaHistorico where
  tipo : String
  valor : ℚ
  data : String
deriving DecidableEq, Repr

/-- Class `Historico`: the append-only `_transacoes` list of an account. -/
structure Historico where
  transacoes : List EntradaHistorico
deriving DecidableEq, Repr

/-- Method `Historico.adicionar_transacao`: append the entry built from a transaction,
formatting its timestamp with `strftime("%d-%m-%Y %H:%M:%S")`. -/
def Historico.adicionar_transacao (h : Historico) (t : Transacao) : Historico :=
  ⟨h.transacoes ++ [⟨t.tipo.className, t.valor, t.data.strftimeDMYHMS⟩]⟩

/-- Which guard failed inside `sacar`/`depositar` (identified in the source by
the distinct error message each failing branch prints before returning False). -/
inductive AccountError
  | invalidAmount
  | insufficientFunds
  | limitExceeded
  | withdrawalCapReached
deriving DecidableEq, Repr

/-- Base account `Conta`: balance, number, fixed branch, history. -/
structure Conta where
  saldo : ℚ
  numero : Nat
  agencia : String
  historico : Historico
deriving DecidableEq, Repr

/-- Constructor `Conta.__init__` / `Conta.nova_conta`: zero balance, branch "0001",
empty history. -/
def Conta.nova_conta (numero : Nat) : Conta :=
  { saldo := 0, numero := numero, agencia := "0001", historico := ⟨[]⟩ }

/-- Method `Conta.sacar(valor)`: fail on `valor <= 0`, then on `valor > saldo`;
otherwise subtract from the balance and append a fresh `Saque(valor)`
(constructed at the application instant `now`) to the history. -/
def Conta.sacar (c : Conta) (valor : ℚ) (now : DateTime) : Conta × Option AccountError :=
  if valor ≤ 0 then
    (c, some .invalidAmount)
  else if valor > c.saldo then
    (c, some .insufficientFunds)
  else
    ({ c with saldo := c.saldo - valor,
              historico := c.historico.adicionar_transacao ⟨.saque, valor, now⟩ }, none)

/-- Method `Conta.depositar(valor)`: fail on `valor <= 0`; otherwise add to the balance
and append a fresh `Deposito(valor)` (constructed at the application instant
`now`) to the history. -/
def Conta.depositar (c : Conta) (valor : ℚ) (now : DateTime) : Conta × Option AccountError :=
  if valor ≤ 0 then
    (c, some .invalidAmount)
  else
    ({ c with saldo := c.saldo + valor,
              historico := c.historico.adicionar_transacao ⟨.deposito, valor, now⟩ }, none)

/-- Class `ContaCorrente`: a base `Conta` plus `_limite` (per-withdrawal limit,
default 500.0), `_limite_saques` (withdrawal-count cap, default 3) and
`_numero_saques` (withdrawals used, starting at 0). -/
structure ContaCorrente where
  base : Conta
  limite : ℚ
  limite_saques : Nat
  numero_saques : Nat
deriving DecidableEq, Repr

/-- Constructor `ContaCorrente.__init__` with the default `limite=500.0, limite_saques=3`. -/
def ContaCorrente.nova_conta (numero : Nat) : ContaCorrente :=
  { base := Conta.nova_conta numero, limite := 500, limite_saques := 3, numero_saques := 0 }

/-- Method `ContaCorrente.sacar(valor)`: first the per-transaction limit guard
(`valor > limite`), then the cap guard (`numero_saques >= limite_saques`), then
delegate to `Conta.sacar`; on base success increment `_numero_saques`, on base
failure propagate the base outcome unchanged. -/
def ContaCorrente.sacar (cc : ContaCorrente) (valor : ℚ) (now : DateTime) :
    ContaCorrente × Option AccountError :=
  if valor > cc.limite then
    (cc, some .limitExceeded)
  else if cc.numero_saques ≥ cc.limite_saques then
    (cc, some .withdrawalCapReached)
  else
    match cc.base.sacar valor now with
    | (b, none) => ({ cc with base := b, numero_saques := cc.numero_saques + 1 }, none)
    | (b, some e) => ({ cc with base := b }, some e)

/-- Method `depositar` on a `ContaCorrente` is the inherited `Conta.depositar`, acting
on the embedded base state (the subclass does not override it). -/
def ContaCorrente.depositar (cc : ContaCorrente) (valor : ℚ) (now : DateTime) :
    ContaCorrente × Option AccountError :=
  let r := cc.base.depositar valor now
  ({ cc with base := r.1 }, r.2)

/-- Methods `Deposito.registrar(conta)` / `Saque.registrar(conta)`: delegate to
`conta.depositar(self.valor)` or `conta.sacar(self.valor)`. The transaction
object itself never touches the history; the account constructs its own fresh
transaction at the application instant `now`. -/
def Transacao.registrar (t : Transacao) (conta : Conta) (now : DateTime) :
    Conta × Option AccountError :=
  match t.tipo with
  | .deposito => conta.depositar t.valor now
  | .saque => conta.sacar t.valor now

/-- Method `registrar` against a `ContaCorrente`, mirroring Python dynamic dispatch to
the overridden `sacar`. -/
def Transacao.registrarCC (t : Transacao) (conta : ContaCorrente) (now : DateTime) :
    ContaCorrente × Option AccountError :=
  match t.tipo with
  | .deposito => conta.depositar t.valor now
  | .saque => conta.sacar t.valor now

/-- One requested operation of a deposit/withdraw call sequence. -/
inductive Op
  | dep (valor : ℚ)
  | saq (valor : ℚ)
deriving DecidableEq, Repr

/-- Run a sequence of timed operations against a base account, collecting the
accepted (successful) operations in order. A failed call leaves the returned
account state exactly as the method returned it (the source mutates nothing on
a failing guard). -/
def Conta.run : Conta → List (Op × DateTime) → Conta × List Op
  | c, [] => (c, [])
  | c, (op, now) :: rest =>
    let step := match op with
      | Op.dep v => c.depositar v now
      | Op.saq v => c.sacar v now
    let r := Conta.run step.1 rest
    match step.2 with
    | none => (r.1, op :: r.2)
    | some _ => r

/-- Run a sequence of timed operations against a current account, discarding
the per-call outcome. -/
def ContaCorrente.run : ContaCorrente → List (Op × DateTime) → ContaCorrente
  | cc, [] => cc
  | cc, (op, now) :: rest =>
    let step := match op with
      | Op.dep v => cc.depositar v now
      | Op.saq v => cc.sacar v now
    ContaCorrente.run step.1 rest

/-- Sum of the amounts of the deposit operations in a list. -/
def somaDepositos : List Op → ℚ
  | [] => 0
  | Op.dep v :: rest => v + somaDepositos rest
  | Op.saq _ :: rest => somaDepositos rest

/-- Sum of the amounts of the withdrawal operations in a list. -/
def somaSaques : List Op → ℚ
  | [] => 0
  | Op.dep _ :: rest => somaSaques rest
  | Op.saq v :: rest => v + somaSaques rest

/-! Shared helper lemmas about the single-call behaviour of `Conta`. -/

/-- A failing `sacar` call leaves the account exactly as it was. -/
theorem Conta.sacar_fail_state (c : Conta) (v : ℚ) (now : DateTime) (e : AccountError)
    (h : (c.sacar v now).2 = some e) : (c.sacar v now).1 = c := by
  unfold Conta.sacar at *
  by_cases h1 : v ≤ 0
  · simp [h1]
  · by_cases h2 : v > c.saldo
    · simp [h1, h2]
    · simp [h1, h2] at h

/-- A failing `depositar` call leaves the account exactly as it was. -/
theorem Conta.depositar_fail_state (c : Conta) (v : ℚ) (now : DateTime) (e : AccountError)
    (h : (c.depositar v now).2 = some e) : (c.depositar v now).1 = c := by
  unfold Conta.depositar at *
  by_cases h1 : v ≤ 0
  · simp [h1]
  · simp [h1] at h

/-- C2: `depositar` fails with `InvalidAmount` exactly when the amount is
non-positive, in which case the state is untouched; a positive amount succeeds,
adds exactly the amount to the balance and appends exactly one Deposito entry
carrying the amount and the formatted application instant. -/
theorem C2_depositar_spec (c : Conta) (v : ℚ) (now : DateTime) :
    ((c.depositar v now).2 = some AccountError.invalidAmount ↔ v ≤ 0)
    ∧ (v ≤ 0 → (c.depositar v now).1 = c)
    ∧ (0 < v →
        (c.depositar v now).2 = none
        ∧ (c.depositar v now).1.saldo = c.saldo + v
        ∧ (c.depositar v now).1.historico.transacoes
            = c.historico.transacoes
              ++ [⟨TipoTransacao.deposito.className, v, now.strftimeDMYHMS⟩]) := by
  by_cases hv : v ≤ 0
  · simp [Conta.depositar, hv, not_lt.mpr hv]
  · have hv2 : 0 < v := lt_of_not_le hv
    simp [Conta.depositar, hv, Historico.adicionar_transacao]

/-- C3: `sacar` checks its guards in order: non-positive amount reports
`InvalidAmount` with the state untouched; otherwise an amount above the balance
reports `InsufficientFunds` with the state untouched; otherwise the call
succeeds, subtracts exactly the amount and appends exactly one Saque entry. -/
theorem C3_sacar_spec (c : Conta) (v : ℚ) (now : DateTime) :
    (v ≤ 0 → c.sacar v now = (c, some AccountError.invalidAmount))
    ∧ (0 < v → c.saldo < v → c.sacar v now = (c, some AccountError.insufficientFunds))
    ∧ (0 < v → v ≤ c.saldo →
        (c.sacar v now).2 = none
        ∧ (c.sacar v now).1.saldo = c.saldo - v
        ∧ (c.sacar v now).1.historico.transacoes
            = c.historico.transacoes
              ++ [⟨TipoTransacao.saque.className, v, now.strftimeDMYHMS⟩]) := by
  refine ⟨?_, ?_, ?_⟩
  · intro hv
    simp [Conta.sacar, hv]
  · intro hv hs
    simp [Conta.sacar, not_le.mpr hv, hs]
  · intro hv hs
    simp [Conta.sacar, not_le.mpr hv, not_lt.mpr hs, Historico.adicionar_transacao]

/-- C3 witness: on a fresh account, withdrawing a non-positive amount reports
`InvalidAmount` and leaves the account untouched. -/
theorem C3_sacar_spec_witness :
    (Conta.nova_conta 1).sacar (-1) ⟨2024, 1, 1, 12, 0, 0⟩
      = (Conta.nova_conta 1, some AccountError.invalidAmount) :=
  (C3_sacar_spec (Conta.nova_conta 1) (-1) ⟨2024, 1, 1, 12, 0, 0⟩).1 (by norm_num)

/-- C2 witness: on a fresh account, `depositar 0` reports `InvalidAmount` and
changes nothing, and `depositar 100` succeeds with balance 100 and one entry. -/
theorem C2_depositar_spec_witness :
    (((Conta.nova_conta 1).depositar 0 ⟨2024, 1, 1, 12, 0, 0⟩).2
        = some AccountError.invalidAmount ↔ (0 : ℚ) ≤ 0)
    ∧ ((0 : ℚ) ≤ 0 → ((Conta.nova_conta 1).depositar 0 ⟨2024, 1, 1, 12, 0, 0⟩).1
        = Conta.nova_conta 1)
    ∧ ((0 : ℚ) < 0 →
        ((Conta.nova_conta 1).depositar 0 ⟨2024, 1, 1, 12, 0, 0⟩).2 = none
        ∧ ((Conta.nova_conta 1).depositar 0 ⟨2024, 1, 1, 12, 0, 0⟩).1.saldo
            = (Conta.nova_conta 1).saldo + 0
        ∧ ((Conta.nova_conta 1).depositar 0 ⟨2024, 1, 1, 12, 0, 0⟩).1.historico.transacoes
            = (Conta.nova_conta 1).historico.transacoes
              ++ [⟨TipoTransacao.deposito.className, 0,
                    DateTime.strftimeDMYHMS ⟨2024, 1, 1, 12, 0, 0⟩⟩]) :=
  C2_depositar_spec (Conta.nova_conta 1) 0 ⟨2024, 1, 1, 12, 0, 0⟩

/-- C4: `ContaCorrente.sacar` checks the per-transaction limit first (reported
regardless of balance), then the withdrawal cap, then delegates to the base
`Conta.sacar`; base success increments `numero_saques` by one, base failure
propagates its error unchanged and leaves the state untouched. -/
theorem C4_cc_sacar_order (cc : ContaCorrente) (v : ℚ) (now : DateTime) :
    (cc.limite < v → cc.sacar v now = (cc, some AccountError.limitExceeded))
    ∧ (v ≤ cc.limite → cc.limite_saques ≤ cc.numero_saques →
        cc.sacar v now = (cc, some AccountError.withdrawalCapReached))
    ∧ (v ≤ cc.limite → cc.numero_saques < cc.limite_saques →
        ((cc.base.sacar v now).2 = none →
            cc.sacar v now =
              ({ cc with base := (cc.base.sacar v now).1,
                         numero_saques := cc.numero_saques + 1 }, none))
        ∧ (∀ e, (cc.base.sacar v now).2 = some e → cc.sacar v now = (cc, some e))) := by
  refine ⟨?_, ?_, ?_⟩
  · intro hlim
    simp [ContaCorrente.sacar, hlim]
  · intro hlim hcap
    simp [ContaCorrente.sacar, not_lt.mpr hlim, hcap]
  · intro hlim hcap
    constructor
    · intro hok
      rcases hstep : cc.base.sacar v now with ⟨b, r⟩
      rw [hstep] at hok
      simp only at hok
      subst hok
      simp [ContaCorrente.sacar, not_lt.mpr hlim, not_le.mpr hcap, hstep]
    · intro e herr
      have hback : (cc.base.sacar v now).1 = cc.base :=
        Conta.sacar_fail_state cc.base v now e herr
      rcases hstep : cc.base.sacar v now with ⟨b, r⟩
      rw [hstep] at herr hback
      simp only at herr hback
      subst herr
      subst hback
      simp [ContaCorrente.sacar, not_lt.mpr hlim, not_le.mpr hcap, hstep]

/-- C4 witness: on a fresh current account (limit 500, zero balance), a 500.01
withdrawal reports `LimitExceeded` even though the balance is far below it. -/
theorem C4_cc_sacar_order_witness :
    (ContaCorrente.nova_conta 1).sacar 500.01 ⟨2024, 1, 1, 12, 0, 0⟩
      = (ContaCorrente.nova_conta 1, some AccountError.limitExceeded) :=
  (C4_cc_sacar_order (ContaCorrente.nova_conta 1) 500.01 ⟨2024, 1, 1, 12, 0, 0⟩).1
    (by norm_num [ContaCorrente.nova_conta])

/-- C9: deposits on a current account go through the inherited base `depositar`
only: any positive amount succeeds and adds exactly that amount to the balance,
with no per-transaction-limit or withdrawal-cap guard involved (`limite`,
`limite_saques` and `numero_saques` are neither consulted nor changed). -/
theorem C9_cc_depositar_unrestricted (cc : ContaCorrente) (v : ℚ) (now : DateTime)
    (hv : 0 < v) :
    (cc.depositar v now).2 = none
    ∧ (cc.depositar v now).1.base.saldo = cc.base.saldo + v
    ∧ (cc.depositar v now).1.numero_saques = cc.numero_saques
    ∧ (cc.depositar v now).1.limite = cc.limite
    ∧ (cc.depositar v now).1.limite_saques = cc.limite_saques := by
  simp [ContaCorrente.depositar, Conta.depositar, not_le.mpr hv]

/-- C9 witness: a current account already at the withdrawal cap accepts a
deposit of 1000, twice the per-transaction limit. -/
theorem C9_cc_depositar_unrestricted_witness :
    (0 : ℚ) < 1000
    ∧ (({ ContaCorrente.nova_conta 1 with numero_saques := 3 }
          : ContaCorrente).depositar 1000 ⟨2024, 1, 1, 12, 0, 0⟩).2 = none := by
  constructor
  · norm_num
  · exact (C9_cc_depositar_unrestricted
      { ContaCorrente.nova_conta 1 with numero_saques := 3 } 1000
      ⟨2024, 1, 1, 12, 0, 0⟩ (by norm_num)).1

/-- C10: on a current account whose withdrawal cap is already used up, a
non-positive amount that does not exceed the per-transaction limit is reported
as `WithdrawalCapReached`, not `InvalidAmount` (the cap guard runs before the
base amount-validity guard ever gets to see the amount). -/
theorem C10_capped_nonpositive (cc : ContaCorrente) (v : ℚ) (now : DateTime)
    (_hv : v ≤ 0) (hlim : v ≤ cc.limite) (hcap : cc.limite_saques ≤ cc.numero_saques) :
    cc.sacar v now = (cc, some AccountError.withdrawalCapReached) := by
  simp [ContaCorrente.sacar, not_lt.mpr hlim, hcap]

/-- C10 witness: a capped current account reports `WithdrawalCapReached` on a
withdrawal of -1. -/
theorem C10_capped_nonpositive_witness :
    ((-1 : ℚ) ≤ 0)
    ∧ (({ ContaCorrente.nova_conta 1 with numero_saques := 3 }
          : ContaCorrente).sacar (-1) ⟨2024, 1, 1, 12, 0, 0⟩
        = ({ ContaCorrente.nova_conta 1 with numero_saques := 3 },
            some AccountError.withdrawalCapReached)) := by
  constructor
  · norm_num
  · exact C10_capped_nonpositive
      { ContaCorrente.nova_conta 1 with numero_saques := 3 } (-1)
      ⟨2024, 1, 1, 12, 0, 0⟩ (by norm_num) (by norm_num [ContaCorrente.nova_conta])
      (by norm_num [ContaCorrente.nova_conta])

/-- Accounting invariant of a run: the final balance is the initial balance
plus the accepted deposit amounts minus the accepted withdrawal amounts, and a
non-negative starting balance stays non-negative. -/
theorem Conta.run_spec (ops : List (Op × DateTime)) :
    ∀ c : Conta,
      ((c.run ops).1.saldo
          = c.saldo + somaDepositos (c.run ops).2 - somaSaques (c.run ops).2)
      ∧ (0 ≤ c.saldo → 0 ≤ (c.run ops).1.saldo) := by
  induction ops with
  | nil =>
    intro c
    simp [Conta.run, somaDepositos, somaSaques]
  | cons hd tl ih =>
    intro c
    obtain ⟨op, now⟩ := hd
    cases op with
    | dep v =>
      by_cases hv : v ≤ 0
      · simpa [Conta.run, Conta.depositar, hv] using ih c
      · have h2 := ih (c.depositar v now).1
        simp [Conta.depositar, hv] at h2
        constructor
        · have := h2.1
          simp [Conta.run, Conta.depositar, hv, somaDepositos, somaSaques] at this ⊢
          linarith
        · intro hc
          have := h2.2 (by linarith [lt_of_not_le hv])
          simpa [Conta.run, Conta.depositar, hv] using this
    | saq v =>
      by_cases hv : v ≤ 0
      · simpa [Conta.run, Conta.sacar, hv] using ih c
      · by_cases hs : v > c.saldo
        · simpa [Conta.run, Conta.sacar, hv, hs] using ih c
        · have h2 := ih (c.sacar v now).1
          simp [Conta.sacar, hv, hs] at h2
          constructor
          · have := h2.1
            simp [Conta.run, Conta.sacar, hv, hs, somaDepositos, somaSaques] at this ⊢
            linarith
          · intro hc
            have := h2.2 (not_lt.mp hs)
            simpa [Conta.run, Conta.sacar, hv, hs] using this

/-- C1: starting from a freshly created account, after any sequence of
deposit/withdraw calls the balance equals the sum of the accepted deposit
amounts minus the sum of the accepted withdrawal amounts, and at every point of
the sequence (after any prefix of it) the balance is non-negative. -/
theorem C1_balance_accounting (numero : Nat) (ops pre : List (Op × DateTime))
    (_hpre : pre <+: ops) :
    (((Conta.nova_conta numero).run ops).1.saldo
        = somaDepositos ((Conta.nova_conta numero).run ops).2
          - somaSaques ((Conta.nova_conta numero).run ops).2)
    ∧ 0 ≤ ((Conta.nova_conta numero).run pre).1.saldo := by
  constructor
  · have h := (Conta.run_spec ops (Conta.nova_conta numero)).1
    simpa [Conta.nova_conta] using h
  · exact (Conta.run_spec pre (Conta.nova_conta numero)).2 (by simp [Conta.nova_conta])

/-- Sample operation sequence for concrete instantiations: deposit 10, then
withdraw 3, then a withdrawal of 100 that fails on insufficient funds. -/
def opsEx : List (Op × DateTime) :=
  [(Op.dep 10, ⟨2024, 1, 1, 12, 0, 0⟩),
   (Op.saq 3, ⟨2024, 1, 1, 12, 0, 1⟩),
   (Op.saq 100, ⟨2024, 1, 1, 12, 0, 2⟩)]

/-- One-operation prefix of `opsEx`. -/
def preEx : List (Op × DateTime) :=
  [(Op.dep 10, ⟨2024, 1, 1, 12, 0, 0⟩)]

/-- C1 witness: on the sample sequence (deposit 10, withdraw 3, failing
withdraw 100) from a fresh account, the final balance is the accepted deposits
minus the accepted withdrawals, and the balance after the prefix is
non-negative. -/
theorem C1_balance_accounting_witness :
    preEx <+: opsEx
    ∧ ((((Conta.nova_conta 1).run opsEx).1.saldo
          = somaDepositos ((Conta.nova_conta 1).run opsEx).2
            - somaSaques ((Conta.nova_conta 1).run opsEx).2)
        ∧ 0 ≤ ((Conta.nova_conta 1).run preEx).1.saldo) := by
  have hp : preEx <+: opsEx :=
    ⟨[(Op.saq 3, ⟨2024, 1, 1, 12, 0, 1⟩), (Op.saq 100, ⟨2024, 1, 1, 12, 0, 2⟩)], rfl⟩
  exact ⟨hp, C1_balance_accounting 1 opsEx preEx hp⟩

/-- Effect of one `ContaCorrente.sacar` call on the withdrawal counter: it
either stays put or grows by exactly one, the latter only while strictly below
the cap; the cap and limit fields themselves never change. -/
theorem ContaCorrente.sacar_counter_step (cc : ContaCorrente) (v : ℚ) (now : DateTime) :
    ((cc.sacar v now).1.numero_saques = cc.numero_saques
      ∨ ((cc.sacar v now).1.numero_saques = cc.numero_saques + 1
          ∧ cc.numero_saques < cc.limite_saques))
    ∧ (cc.sacar v now).1.limite_saques = cc.limite_saques := by
  unfold ContaCorrente.sacar
  by_cases h1 : v > cc.limite
  · simp [h1]
  · by_cases h2 : cc.numero_saques ≥ cc.limite_saques
    · simp [h1, h2]
    · rcases hstep : cc.base.sacar v now with ⟨b, r⟩
      cases r with
      | none => simp [h1, h2, hstep, lt_of_not_le h2]
      | some e => simp [h1, h2, hstep]

/-- A deposit never touches the withdrawal counter, cap or limit. -/
theorem ContaCorrente.depositar_counter_step (cc : ContaCorrente) (v : ℚ) (now : DateTime) :
    (cc.depositar v now).1.numero_saques = cc.numero_saques
    ∧ (cc.depositar v now).1.limite_saques = cc.limite_saques := by
  simp [ContaCorrente.depositar]

/-- Along any run of a current account the withdrawal counter only grows, the
cap field is constant, and a counter at or below the cap stays at or below it. -/
theorem ContaCorrente.run_counter (ops : List (Op × DateTime)) :
    ∀ cc : ContaCorrente,
      cc.numero_saques ≤ (ContaCorrente.run cc ops).numero_saques
      ∧ (ContaCorrente.run cc ops).limite_saques = cc.limite_saques
      ∧ (cc.numero_saques ≤ cc.limite_saques →
          (ContaCorrente.run cc ops).numero_saques ≤ cc.limite_saques) := by
  induction ops with
  | nil =>
    intro cc
    simp [ContaCorrente.run]
  | cons hd tl ih =>
    intro cc
    obtain ⟨op, now⟩ := hd
    cases op with
    | dep v =>
      have hstep := ContaCorrente.depositar_counter_step cc v now
      have hrun : ContaCorrente.run cc ((Op.dep v, now) :: tl)
          = ContaCorrente.run (cc.depositar v now).1 tl := by
        simp [ContaCorrente.run]
      have ih2 := ih (cc.depositar v now).1
      rw [hrun]
      refine ⟨?_, ?_, ?_⟩
      · omega
      · omega
      · intro hle
        have := ih2.2.2 (by omega)
        omega
    | saq v =>
      have hstep := ContaCorrente.sacar_counter_step cc v now
      have hrun : ContaCorrente.run cc ((Op.saq v, now) :: tl)
          = ContaCorrente.run (cc.sacar v now).1 tl := by
        simp [ContaCorrente.run]
      have ih2 := ih (cc.sacar v now).1
      rw [hrun]
      obtain ⟨hcount, hcap⟩ := hstep
      rcases hcount with heq | ⟨heq, hlt⟩
      · refine ⟨?_, ?_, ?_⟩
        · omega
        · omega
        · intro hle
          have := ih2.2.2 (by omega)
          omega
      · refine ⟨?_, ?_, ?_⟩
        · omega
        · omega
        · intro hle
          have := ih2.2.2 (by omega)
          omega

/-- C5: once the withdrawal counter has reached the cap, any withdrawal whose
amount does not trip the (earlier) per-transaction-limit guard fails with
`WithdrawalCapReached` and leaves the account, counter included, untouched;
along any run the counter is monotonically non-decreasing and, starting at or
below the cap, never exceeds it. -/
theorem C5_withdrawal_cap (cc : ContaCorrente) (ops : List (Op × DateTime))
    (v : ℚ) (now : DateTime) :
    (cc.limite_saques ≤ cc.numero_saques → v ≤ cc.limite →
        cc.sacar v now = (cc, some AccountError.withdrawalCapReached))
    ∧ cc.numero_saques ≤ (ContaCorrente.run cc ops).numero_saques
    ∧ (cc.numero_saques ≤ cc.limite_saques →
        (ContaCorrente.run cc ops).numero_saques ≤ cc.limite_saques) := by
  refine ⟨?_, (ContaCorrente.run_counter ops cc).1, (ContaCorrente.run_counter ops cc).2.2⟩
  intro hcap hlim
  simp [ContaCorrente.sacar, not_lt.mpr hlim, hcap]

/-- C5 witness: a fresh current account with its three withdrawals used up
refuses a withdrawal of 50 with `WithdrawalCapReached`; running the sample
sequence keeps the counter monotone and within the cap. -/
theorem C5_withdrawal_cap_witness :
    (({ ContaCorrente.nova_conta 1 with numero_saques := 3 }
        : ContaCorrente).limite_saques
      ≤ ({ ContaCorrente.nova_conta 1 with numero_saques := 3 }
        : ContaCorrente).numero_saques)
    ∧ ((50 : ℚ) ≤ ({ ContaCorrente.nova_conta 1 with numero_saques := 3 }
        : ContaCorrente).limite)
    ∧ ({ ContaCorrente.nova_conta 1 with numero_saques := 3 }
        : ContaCorrente).sacar 50 ⟨2024, 1, 1, 12, 0, 0⟩
      = ({ ContaCorrente.nova_conta 1 with numero_saques := 3 },
          some AccountError.withdrawalCapReached) := by
  refine ⟨by norm_num [ContaCorrente.nova_conta], by norm_num [ContaCorrente.nova_conta], ?_⟩
  exact (C5_withdrawal_cap { ContaCorrente.nova_conta 1 with numero_saques := 3 }
      opsEx 50 ⟨2024, 1, 1, 12, 0, 0⟩).1
    (by norm_num [ContaCorrente.nova_conta]) (by norm_num [ContaCorrente.nova_conta])

/-- C7 counterexample: register a deposit transaction constructed on
01-01-2024 but applied on 02-01-2024; the history entry records the
application instant, not the registered transaction's construction instant,
so the claim that the entry carries the registered transaction's timestamp is
false. -/
theorem C7_timestamp_counterexample :
    (((⟨TipoTransacao.deposito, 100, ⟨2024, 1, 1, 0, 0, 0⟩⟩ : Transacao).registrar
          (Conta.nova_conta 1) ⟨2024, 1, 2, 0, 0, 0⟩).1.historico.transacoes.getD 0
        ⟨"", 0, ""⟩).data
      ≠ DateTime.strftimeDMYHMS ⟨2024, 1, 1, 0, 0, 0⟩ := by
  decide

/-- C7 amended: the history entry appended for a successfully applied
transaction carries that transaction's kind and amount, together with the
application instant (the construction time of the fresh transaction the
account builds inside `depositar`/`sacar`) formatted day-month-year
hour:minute:second. -/
theorem C7_history_entry_amended (t : Transacao) (c : Conta) (now : DateTime)
    (h : (t.registrar c now).2 = none) :
    (t.registrar c now).1.historico.transacoes
      = c.historico.transacoes
        ++ [⟨t.tipo.className, t.valor, now.strftimeDMYHMS⟩] := by
  obtain ⟨tipo, valor, data⟩ := t
  cases tipo with
  | deposito =>
    by_cases hv : valor ≤ 0
    · simp [Transacao.registrar, Conta.depositar, hv] at h
    · simp [Transacao.registrar, Conta.depositar, hv, Historico.adicionar_transacao]
  | saque =>
    by_cases hv : valor ≤ 0
    · simp [Transacao.registrar, Conta.sacar, hv] at h
    · by_cases hs : valor > c.saldo
      · simp [Transacao.registrar, Conta.sacar, hv, hs] at h
      · simp [Transacao.registrar, Conta.sacar, hv, hs, Historico.adicionar_transacao]

/-- C7 witness: a deposit of 100 constructed on 01-01-2024 and applied on
02-01-2024 to a fresh account succeeds and appends the Deposito entry stamped
with the application instant. -/
theorem C7_history_entry_amended_witness :
    ((⟨TipoTransacao.deposito, 100, ⟨2024, 1, 1, 0, 0, 0⟩⟩ : Transacao).registrar
        (Conta.nova_conta 1) ⟨2024, 1, 2, 0, 0, 0⟩).2 = none
    ∧ ((⟨TipoTransacao.deposito, 100, ⟨2024, 1, 1, 0, 0, 0⟩⟩ : Transacao).registrar
        (Conta.nova_conta 1) ⟨2024, 1, 2, 0, 0, 0⟩).1.historico.transacoes
      = (Conta.nova_conta 1).historico.transacoes
        ++ [⟨TipoTransacao.deposito.className, 100,
              DateTime.strftimeDMYHMS ⟨2024, 1, 2, 0, 0, 0⟩⟩] := by
  have h : ((⟨TipoTransacao.deposito, 100, ⟨2024, 1, 1, 0, 0, 0⟩⟩ : Transacao).registrar
      (Conta.nova_conta 1) ⟨2024, 1, 2, 0, 0, 0⟩).2 = none := by
    norm_num [Transacao.registrar, Conta.depositar]
  exact ⟨h, C7_history_entry_amended
    ⟨TipoTransacao.deposito, 100, ⟨2024, 1, 1, 0, 0, 0⟩⟩
    (Conta.nova_conta 1) ⟨2024, 1, 2, 0, 0, 0⟩ h⟩

/-- Length of the history after a `depositar` call: one more entry exactly when
the call succeeded. -/
theorem Conta.depositar_hist_len (c : Conta) (v : ℚ) (now : DateTime) :
    (c.depositar v now).1.historico.transacoes.length
      = c.historico.transacoes.length
        + (if (c.depositar v now).2 = none then 1 else 0) := by
  by_cases hv : v ≤ 0
  · simp [Conta.depositar, hv]
  · simp [Conta.depositar, hv, Historico.adicionar_transacao]

/-- Length of the history after a `sacar` call: one more entry exactly when
the call succeeded. -/
theorem Conta.sacar_hist_len (c : Conta) (v : ℚ) (now : DateTime) :
    (c.sacar v now).1.historico.transacoes.length
      = c.historico.transacoes.length
        + (if (c.sacar v now).2 = none then 1 else 0) := by
  by_cases hv : v ≤ 0
  · simp [Conta.sacar, hv]
  · by_cases hs : v > c.saldo
    · simp [Conta.sacar, hv, hs]
    · simp [Conta.sacar, hv, hs, Historico.adicionar_transacao]

/-- C8: `registrar` on a Deposito is exactly `depositar` with the transaction's
amount, on a Saque exactly `sacar` (for the base account and, via dynamic
dispatch, for a current account); the transaction itself appends nothing: the
history grows by exactly one entry when the account accepted the call and by
none otherwise. -/
theorem C8_registrar_delegation (t : Transacao) (c : Conta) (cc : ContaCorrente)
    (now : DateTime) :
    (t.registrar c now
        = match t.tipo with
          | TipoTransacao.deposito => c.depositar t.valor now
          | TipoTransacao.saque => c.sacar t.valor now)
    ∧ (t.registrarCC cc now
        = match t.tipo with
          | TipoTransacao.deposito => cc.depositar t.valor now
          | TipoTransacao.saque => cc.sacar t.valor now)
    ∧ ((t.registrar c now).1.historico.transacoes.length
        = c.historico.transacoes.length
          + (if (t.registrar c now).2 = none then 1 else 0)) := by
  refine ⟨rfl, rfl, ?_⟩
  obtain ⟨tipo, valor, data⟩ := t
  cases tipo with
  | deposito => simpa [Transacao.registrar] using Conta.depositar_hist_len c valor now
  | saque => simpa [Transacao.registrar] using Conta.sacar_hist_len c valor now

/-- The source's digit-level checks agree with the spec-side digit checks on
every digit string. -/
theorem cpf_digits_equiv (l : List Char) : validar_cpf_digits l = cpfSpecDigits l := by
  by_cases hlen : l.length = 11
  case neg =>
    unfold validar_cpf_digits cpfSpecDigits
    simp [hlen]
  case pos =>
    rcases l with _ | ⟨a0, _ | ⟨a1, _ | ⟨a2, _ | ⟨a3, _ | ⟨a4, _ | ⟨a5, _ | ⟨a6, _ | ⟨a7, _ | ⟨a8, _ | ⟨a9, _ | ⟨a10, rest⟩⟩⟩⟩⟩⟩⟩⟩⟩⟩⟩
    all_goals simp at hlen
    subst hlen
    unfold validar_cpf_digits cpfSpecDigits
    simp only [List.length_cons, List.length_nil, List.replicate, List.headD_cons,
      List.map_cons, List.map_nil, List.take_cons, List.take_nil,
      List.zipWith_cons_cons, List.zipWith_nil_right, List.zipWith_nil_left,
      List.sum_cons, List.sum_nil, List.getD, List.mem_cons, List.not_mem_nil,
      List.range_succ, List.range_zero, List.foldl_cons, List.foldl_nil,
      List.foldl_append, List.cons.injEq, and_true, Nat.reduceAdd]
    simp
    ring_nf
    simp only [Bool.and_assoc]
    congr 1
    congr 1
    · exact decide_eq_decide.mpr eq_comm
    · exact decide_eq_decide.mpr eq_comm

/-- C6: `validar_cpf` computes exactly the specification's algorithm (strip
non-digits, length-11 check, repeated-digit rejection, the two weighted check
digits with the shared remainder rule), and on the reference inputs it rejects
the repeated-digit string, accepts the known-valid CPF, and accepts the same
CPF with punctuation. -/
theorem C6_cpf_validator (s : String) :
    validar_cpf s = cpfSpecValidate s
    ∧ validar_cpf "11111111111" = false
    ∧ validar_cpf "52998224725" = true
    ∧ validar_cpf "529.982.247-25" = true :=
  ⟨cpf_digits_equiv (s.toList.filter Char.isDigit), by decide, by decide, by decide⟩
